import Mathlib

/-
Shallow embedding of the gait_ocp repository (src/gait/ocp.py and src/main.py).

The repository is glue code over the bioptim / biorbd optimal-control stack:
it assembles objective, dynamics, constraint, bounds, initial-guess and
phase-transition containers and hands them to the library constructor
OptimalControlProgram.  The embedding models
  - a biorbd model by the handful of query results the code reads from it
    (nbQ, nbQdot, nbGeneralizedTorque, nbMuscleTotal, contactNames);
  - each library container by the list of records of the arguments the code
    passes to its add method;
  - numeric data (CasADi MX values, numpy arrays) by rationals and lists of
    rationals;
  - the library constructor by a record of everything it receives.
Python float arithmetic is modelled by exact rational arithmetic, and a Python
runtime error (IndexError on an empty string, ZeroDivisionError) by Option.
-/

/-- Matrix of rationals: model of a 2-dimensional numpy array / CasADi value,
stored as the list of its rows. -/
abbrev Mat : Type := List (List ℚ)

/-- Model of a 3-dimensional numpy array (used for marker trajectories). -/
abbrev Arr3 : Type := List (List (List ℚ))

/-- The slice of a biorbd model that src/gait/ocp.py reads: the sizes queried at
the top of prepare_ocp and the contact-force names. -/
structure BioModel where
  nbQ : Nat
  nbQdot : Nat
  nbGeneralizedTorque : Nat
  nbMuscleTotal : Nat
  contactNames : List String
  deriving DecidableEq, Inhabited

/-- The part of a bioptim nlp that get_contact_index and
track_sum_contact_forces read: the model, the state and control values of the
node, the parameters, and the contact-forces function of the phase.  The
function maps (states, controls, parameters) to the vector of contact-force
entries, one per contact name. -/
structure NlpData where
  model : BioModel
  q : List ℚ
  qdot : List ℚ
  tau : List ℚ
  muscles : List ℚ
  parameters : List ℚ
  contact_forces_func : List ℚ → List ℚ → List ℚ → List ℚ

/-- Model of a bioptim PenaltyNode: the code only reads pn.nlp. -/
structure PenaltyNode where
  nlp : NlpData

/-- Target of an objective term, recorded symbolically: either a 2-dimensional
array (grf_ref of a phase) or the slice arr3slice a idx of a 3-dimensional
array at marker indices idx, standing for the numpy expression a of shape
(:, idx, :). -/
inductive Target where
  | arr2 (a : Mat)
  | arr3slice (a : Arr3) (idx : List Nat)
  deriving DecidableEq

/-- Node selector passed to an add call (bioptim Node). -/
inductive NodeSpec where
  | ALL
  | START
  | PENULTIMATE
  deriving DecidableEq

/-- Axis selector passed to an add call (bioptim Axis). -/
inductive AxisSpec where
  | X
  | Y
  | Z
  deriving DecidableEq

/-- Objective function tag: the bioptim Lagrange objectives the code uses, plus
the custom objective track_sum_contact_forces added with
custom_type equal to ObjectiveFcn.Lagrange. -/
inductive ObjectiveTag where
  | TRACK_MARKERS
  | MINIMIZE_CONTROL
  | CUSTOM_track_sum_contact_forces
  deriving DecidableEq

/-- Record of one objective_functions.add call.  Fields left at their default
in the source keep the library defaults: node ALL for a Lagrange objective,
no key, no index, no target, quadratic and derivative false. -/
structure Objective where
  fcn : ObjectiveTag
  key : Option String := none
  node : NodeSpec := NodeSpec.ALL
  weight : ℚ
  index : List Nat := []
  target : Option Target := none
  quadratic : Bool := false
  derivative : Bool := false
  phase : Nat
  deriving DecidableEq

/-- Dynamics function tag (the code only uses MUSCLE_DRIVEN). -/
inductive DynamicsTag where
  | MUSCLE_DRIVEN
  deriving DecidableEq

/-- Record of one dynamics.add call. -/
structure Dynamics where
  fcn : DynamicsTag
  phase : Nat
  with_contact : Bool := false
  with_torque : Bool := false
  expand : Bool := true
  deriving DecidableEq

/-- Constraint function tag. -/
inductive ConstraintTag where
  | TRACK_MARKERS_VELOCITY
  | TRACK_MARKERS
  | TRACK_CONTACT_FORCES
  | NON_SLIPPING
  deriving DecidableEq

/-- Bound value: a finite rational or numpy infinity. -/
inductive BoundVal where
  | fin (q : ℚ)
  | inf
  deriving DecidableEq

/-- Record of one constraints.add call.  When no bound is passed, a bioptim
constraint defaults to the equality bounds 0 .. 0. -/
structure Constraint where
  fcn : ConstraintTag
  node : NodeSpec
  marker_index : List Nat := []
  contact_index : List Nat := []
  axes : Option AxisSpec := none
  min_bound : BoundVal := BoundVal.fin 0
  max_bound : BoundVal := BoundVal.fin 0
  tangential_component_idx : List Nat := []
  normal_component_idx : List Nat := []
  static_friction_coefficient : ℚ := 0
  phase : Nat
  deriving DecidableEq

/-- Phase-transition function tag (the code only uses IMPACT). -/
inductive PhaseTransitionTag where
  | IMPACT
  deriving DecidableEq

/-- Record of one phase_transitions.add call. -/
structure PhaseTransition where
  fcn : PhaseTransitionTag
  phase_pre_idx : Nat
  deriving DecidableEq

/-- Record of one entry of a BoundsList: either QAndQDotBounds(model) built by
the library from a model, or an explicit lower and upper bound vector. -/
inductive Bounds where
  | qAndQDot (m : BioModel)
  | explicitB (lower upper : List ℚ)
  deriving DecidableEq

instance : Inhabited Bounds := ⟨Bounds.explicitB [] []⟩

/-- Interpolation type passed to an InitialGuessList add call. -/
inductive InterpolationType where
  | EACH_FRAME
  deriving DecidableEq

/-- Record of one entry of an InitialGuessList. -/
structure InitialGuess where
  data : Mat
  interpolation : InterpolationType
  deriving DecidableEq

/-- Model of the pair returned by the library call
OptimalControlProgram.load of the file gait.bo: the per-phase state and
control arrays of the previously saved solution, as read through
sol.states[p] at key all and sol.controls[p] at key all. -/
structure Solution where
  states : List Mat
  controls : List Mat
  deriving DecidableEq

/-- Ode solver tag passed through to the library constructor. -/
inductive OdeSolver where
  | RK4
  | RK8
  | IRK
  deriving DecidableEq

/-- Record of the arguments prepare_ocp passes to the library constructor
OptimalControlProgram at src/gait/ocp.py lines 244-258. -/
structure OptimalControlProgram where
  biorbd_model : List BioModel
  dynamics : List Dynamics
  nb_shooting : List Nat
  final_time : List ℚ
  x_init : List InitialGuess
  u_init : List InitialGuess
  x_bounds : List Bounds
  u_bounds : List Bounds
  objective_functions : List Objective
  constraints : List Constraint
  phase_transitions : List PhaseTransition
  n_threads : Nat
  ode_solver : OdeSolver

/-- Flags list of get_contact_index: the Python comprehension building
s[-1] == tag for each contact name s.  Accessing s[-1] on an empty string
raises IndexError, modelled by none. -/
def lastFlags (names : List String) (tag : Char) : Option (List Bool) :=
  match names with
  | [] => some []
  | s :: rest =>
    match s.data.getLast? with
    | none => none
    | some c => (lastFlags rest tag).map (fun fs => (c == tag) :: fs)

/-- Embedding of get_contact_index (src/gait/ocp.py lines 27-29): the indices
i such that the i-th flag is true, where the flags say whether the last
character of the i-th contact name equals the tag. -/
def get_contact_index (pn : PenaltyNode) (tag : Char) : Option (List Nat) :=
  (lastFlags pn.nlp.model.contactNames tag).map
    (fun flags => ((flags.enum.filter (fun it => it.2)).map Prod.fst))

/-- Sum of the entries of v at the positions in idx, the model of
sum1 of the row selection v at the index list idx.  A position past the end
of v contributes the default 0 (the code never produces one: the indices come
from enumerating the contact names, and v has one entry per contact name). -/
def sumAt (v : List ℚ) (idx : List Nat) : ℚ :=
  (idx.map (fun i => v.getD i 0)).sum

/-- Embedding of track_sum_contact_forces (src/gait/ocp.py lines 32-53):
stack states q, qdot and controls tau, muscles, evaluate the phase
contact-forces function, and return the three sums of the entries selected by
get_contact_index at tags X, Y and Z. -/
def track_sum_contact_forces (pn : PenaltyNode) : Option (List ℚ) :=
  let states := pn.nlp.q ++ pn.nlp.qdot
  let controls := pn.nlp.tau ++ pn.nlp.muscles
  let force_tp := pn.nlp.contact_forces_func states controls pn.nlp.parameters
  match get_contact_index pn 'X', get_contact_index pn 'Y',
        get_contact_index pn 'Z' with
  | some ix, some iy, some iz =>
    some [sumAt force_tp ix, sumAt force_tp iy, sumAt force_tp iz]
  | _, _, _ => none

/-- Marker index groups of prepare_ocp (src/gait/ocp.py lines 112-117). -/
def markers_pelvis : List Nat := [0, 1, 2, 3]

/-- Anatomical marker index group. -/
def markers_anat : List Nat := [4, 9, 10, 11, 12, 17, 18]

/-- Tissue marker index group. -/
def markers_tissus : List Nat := [5, 6, 7, 8, 13, 14, 15, 16]

/-- Foot marker index group. -/
def markers_foot : List Nat := [19, 20, 21, 22, 23, 24, 25]

/-- The tuple markers_index of src/gait/ocp.py line 117, in source order. -/
def markers_index : List (List Nat) := [markers_pelvis, markers_anat, markers_foot, markers_tissus]

/-- The tuple weight of src/gait/ocp.py line 118. -/
def trackWeights : List ℚ := [10000, 1000, 10000, 100]

/-- The objective terms added for one phase p by the loop at
src/gait/ocp.py lines 120-136: four TRACK_MARKERS terms, one per entry of
markers_index with the matching weight, then the four MINIMIZE_CONTROL
terms. -/
def phaseObjectives (markers_ref : List Arr3) (p : Nat) : List Objective :=
  (markers_index.enum.map (fun it =>
    { fcn := ObjectiveTag.TRACK_MARKERS
      node := NodeSpec.ALL
      weight := trackWeights.getD it.1 0
      index := it.2
      target := some (Target.arr3slice (markers_ref.getD p []) it.2)
      quadratic := true
      phase := p }))
  ++ [ { fcn := ObjectiveTag.MINIMIZE_CONTROL, key := some "tau", weight := 1/1000,
         index := [10, 12], quadratic := true, phase := p },
       { fcn := ObjectiveTag.MINIMIZE_CONTROL, key := some "tau", weight := 1,
         index := [6, 7, 8, 9, 11], quadratic := true, phase := p },
       { fcn := ObjectiveTag.MINIMIZE_CONTROL, key := some "muscles", weight := 10,
         quadratic := true, phase := p },
       { fcn := ObjectiveTag.MINIMIZE_CONTROL, key := some "tau", derivative := true,
         weight := 1/10, quadratic := true, phase := p } ]

/-- The custom contact-force tracking objective added for phase p by the loop
at src/gait/ocp.py lines 139-148. -/
def grfObjective (grf_ref : List Mat) (p : Nat) : Objective :=
  { fcn := ObjectiveTag.CUSTOM_track_sum_contact_forces
    node := NodeSpec.ALL
    weight := 1/100
    target := some (Target.arr2 (grf_ref.getD p []))
    quadratic := true
    phase := p }

/-- The full objective list built by prepare_ocp: the per-phase loop over
range nb_phases, then the custom contact-force loop over
range (nb_phases - 1). -/
def objectiveList (markers_ref : List Arr3) (grf_ref : List Mat) (nb_phases : Nat) :
    List Objective :=
  (List.range nb_phases).flatMap (phaseObjectives markers_ref)
  ++ (List.range (nb_phases - 1)).map (grfObjective grf_ref)

/-- The dynamics list built by prepare_ocp (src/gait/ocp.py lines 151-154):
MUSCLE_DRIVEN with contact for every phase of range (nb_phases - 1), then
MUSCLE_DRIVEN without contact at the hard-coded phase 3. -/
def dynamicsList (nb_phases : Nat) : List Dynamics :=
  (List.range (nb_phases - 1)).map (fun p =>
    { fcn := DynamicsTag.MUSCLE_DRIVEN, phase := p, with_contact := true,
      with_torque := true, expand := false })
  ++ [ { fcn := DynamicsTag.MUSCLE_DRIVEN, phase := 3,
         with_torque := true, expand := false } ]

/-- Indices of the contact names of a model containing the substring Heel_r
(src/gait/ocp.py line 187). -/
def heelContactIndex (m : BioModel) : List Nat :=
  ((m.contactNames.enum.filter
    (fun it => decide (List.IsInfix "Heel_r".data it.2.data))).map Prod.fst)

/-- The constraint list built by prepare_ocp (src/gait/ocp.py lines 156-208),
in source order; model1 is biorbd_model[1], whose contact names select the
heel contact indices. -/
def constraintsList (model1 : BioModel) : List Constraint :=
  [ { fcn := ConstraintTag.TRACK_MARKERS_VELOCITY, node := NodeSpec.START,
      marker_index := [26], phase := 0 },
    { fcn := ConstraintTag.TRACK_MARKERS, node := NodeSpec.START,
      marker_index := [26], axes := some AxisSpec.Z, phase := 0 },
    { fcn := ConstraintTag.TRACK_MARKERS, node := NodeSpec.START,
      marker_index := [27, 28], axes := some AxisSpec.Z, phase := 1 },
    { fcn := ConstraintTag.TRACK_CONTACT_FORCES, node := NodeSpec.ALL,
      min_bound := BoundVal.fin 0, max_bound := BoundVal.inf,
      contact_index := [0, 1, 4], phase := 1 },
    { fcn := ConstraintTag.NON_SLIPPING, node := NodeSpec.ALL,
      tangential_component_idx := [2, 3], normal_component_idx := [0, 1, 4],
      static_friction_coefficient := 1/2, phase := 1 },
    { fcn := ConstraintTag.TRACK_CONTACT_FORCES, node := NodeSpec.PENULTIMATE,
      contact_index := heelContactIndex model1, phase := 1 },
    { fcn := ConstraintTag.TRACK_CONTACT_FORCES, node := NodeSpec.ALL,
      min_bound := BoundVal.fin 0, max_bound := BoundVal.inf,
      contact_index := [0, 3, 4], phase := 2 },
    { fcn := ConstraintTag.NON_SLIPPING, node := NodeSpec.ALL,
      tangential_component_idx := [1, 2], normal_component_idx := [0, 3, 4],
      static_friction_coefficient := 1/2, phase := 2 } ]

/-- The phase-transition list built by prepare_ocp
(src/gait/ocp.py lines 211-213). -/
def phaseTransitionsList : List PhaseTransition :=
  [ { fcn := PhaseTransitionTag.IMPACT, phase_pre_idx := 0 },
    { fcn := PhaseTransitionTag.IMPACT, phase_pre_idx := 1 } ]

/-- The state-bounds list: QAndQDotBounds(biorbd_model[p]) for each phase p
(src/gait/ocp.py lines 218-219). -/
def xBoundsList (biorbd_model : List BioModel) : List Bounds :=
  (List.range biorbd_model.length).map (fun p =>
    Bounds.qAndQDot (biorbd_model.getD p default))

/-- The control-bounds list: for each phase the explicit lower vector of
nb_tau copies of torque_min then nb_mus copies of activation_min, and the
matching upper vector (src/gait/ocp.py lines 218-223). -/
def uBoundsList (nb_phases nb_tau nb_mus : Nat) : List Bounds :=
  (List.range nb_phases).map (fun _ =>
    Bounds.explicitB
      (List.replicate nb_tau (-1000) ++ List.replicate nb_mus (1/1000))
      (List.replicate nb_tau 1000 ++ List.replicate nb_mus 1))

/-- The state initial-guess list: for each phase the states of the loaded
previous solution, interpolated EACH_FRAME (src/gait/ocp.py line 236). -/
def xInitList (loaded : Solution) (nb_phases : Nat) : List InitialGuess :=
  (List.range nb_phases).map (fun p =>
    { data := loaded.states.getD p [], interpolation := InterpolationType.EACH_FRAME })

/-- The control initial-guess list: for each phase the controls of the loaded
previous solution with the last column dropped (the numpy slice of all rows
and columns up to the last, excluded), interpolated EACH_FRAME
(src/gait/ocp.py line 241). -/
def uInitList (loaded : Solution) (nb_phases : Nat) : List InitialGuess :=
  (List.range nb_phases).map (fun p =>
    { data := (loaded.controls.getD p []).map List.dropLast,
      interpolation := InterpolationType.EACH_FRAME })

/-- Embedding of prepare_ocp (src/gait/ocp.py lines 56-258).  The extra first
argument loaded models the content of the file gait.bo read by the library
call OptimalControlProgram.load inside the function body. -/
def prepare_ocp (loaded : Solution) (biorbd_model : List BioModel)
    (final_time : List ℚ) (nb_shooting : List Nat)
    (markers_ref : List Arr3) (grf_ref : List Mat)
    (q_ref : List Mat) (qdot_ref : List Mat) (activation_ref : List Mat)
    (nb_threads : Nat) (ode_solver : OdeSolver) : OptimalControlProgram :=
  let nb_phases := biorbd_model.length
  let nb_tau := (biorbd_model.getD 0 default).nbGeneralizedTorque
  let nb_mus := (biorbd_model.getD 0 default).nbMuscleTotal
  { biorbd_model := biorbd_model
    dynamics := dynamicsList nb_phases
    nb_shooting := nb_shooting
    final_time := final_time
    x_init := xInitList loaded nb_phases
    u_init := uInitList loaded nb_phases
    x_bounds := xBoundsList biorbd_model
    u_bounds := uBoundsList nb_phases nb_tau nb_mus
    objective_functions := objectiveList markers_ref grf_ref nb_phases
    constraints := constraintsList (biorbd_model.getD 1 default)
    phase_transitions := phaseTransitionsList
    n_threads := nb_threads
    ode_solver := ode_solver }

/-- Embedding of the solve step of the main block of src/main.py: the solution
is produced by the external solver applied to the assembled program, through
the library method ocp.solve; externalSolve stands for that external call. -/
def mainSolve (externalSolve : OptimalControlProgram → Solution)
    (loaded : Solution) (biorbd_model : List BioModel)
    (final_time : List ℚ) (nb_shooting : List Nat)
    (markers_ref : List Arr3) (grf_ref : List Mat)
    (q_ref : List Mat) (qdot_ref : List Mat) (activation_ref : List Mat)
    (nb_threads : Nat) (ode_solver : OdeSolver) : Solution :=
  externalSolve (prepare_ocp loaded biorbd_model final_time nb_shooting
    markers_ref grf_ref q_ref qdot_ref activation_ref nb_threads ode_solver)

/-- Python int() applied to a rational: truncation toward zero. -/
def intTrunc (q : ℚ) : Int := Int.tdiv q.num q.den

/-- The loop of get_phase_time_shooting_numbers: append int(time / dt) for
each phase time.  Dividing by dt = 0 raises ZeroDivisionError, modelled by
none. -/
def shootingNums (times : List ℚ) (dt : ℚ) : Option (List Int) :=
  match times with
  | [] => some []
  | t :: rest =>
    if dt = 0 then none
    else (shootingNums rest dt).map (fun ns => intTrunc (t / dt) :: ns)

/-- The part of the experimental-data object that
get_phase_time_shooting_numbers reads: data.c3d_data.get_time(). -/
structure C3dData where
  phase_time : List ℚ
  deriving DecidableEq

/-- The experimental-data object, as read by the functions under src. -/
structure DataStruct where
  c3d_data : C3dData
  deriving DecidableEq

/-- Embedding of get_phase_time_shooting_numbers
(src/gait/ocp.py lines 261-266). -/
def get_phase_time_shooting_numbers (data : DataStruct) (dt : ℚ) :
    Option (List ℚ × List Int) :=
  (shootingNums data.c3d_data.phase_time dt).map
    (fun ns => (data.c3d_data.phase_time, ns))

/-
Helper lemmas.
-/

/-- A rational in the interval 0 .. 1 truncates to zero. -/
lemma intTrunc_eq_zero_of_lt_one (q : ℚ) (h0 : 0 ≤ q) (h1 : q < 1) :
    intTrunc q = 0 := by
  have hnum : q.num < (q.den : ℤ) := by
    have h := Rat.num_div_den q
    by_contra hc
    push_neg at hc
    have hden : (0:ℚ) < (q.den : ℚ) := by exact_mod_cast q.den_pos
    have hge : (1:ℚ) ≤ (q.num : ℚ) / (q.den : ℚ) := by
      rw [le_div_iff₀ hden]
      exact_mod_cast by simpa using hc
    rw [h] at hge
    linarith
  exact Int.tdiv_eq_zero_of_lt (Rat.num_nonneg.mpr h0) hnum

/-- With a nonzero step the shooting-number loop never fails and computes the
truncated quotients. -/
lemma shootingNums_eq (times : List ℚ) (dt : ℚ) (hdt : dt ≠ 0) :
    shootingNums times dt = some (times.map (fun t => intTrunc (t / dt))) := by
  induction times with
  | nil => rfl
  | cons t rest ih => simp [shootingNums, hdt, ih]

/-
C1 and C2.
-/

/-- C1: prepare_ocp returns the library constructor record assembled from
exactly the objective, dynamics, constraint, bounds, initial-guess and
phase-transition lists it builds, and passes biorbd_model, nb_shooting,
final_time, nb_threads and ode_solver through unchanged; the numerical solve
of the main block is the external solver applied to that record, and nothing
else. -/
theorem prepare_ocp_assembles_and_delegates_solve
    (externalSolve : OptimalControlProgram → Solution) (loaded : Solution)
    (bm : List BioModel) (ft : List ℚ) (ns : List Nat) (mr : List Arr3)
    (gr : List Mat) (qr qdr ar : List Mat) (nt : Nat) (os : OdeSolver) :
    (prepare_ocp loaded bm ft ns mr gr qr qdr ar nt os).biorbd_model = bm
    ∧ (prepare_ocp loaded bm ft ns mr gr qr qdr ar nt os).nb_shooting = ns
    ∧ (prepare_ocp loaded bm ft ns mr gr qr qdr ar nt os).final_time = ft
    ∧ (prepare_ocp loaded bm ft ns mr gr qr qdr ar nt os).n_threads = nt
    ∧ (prepare_ocp loaded bm ft ns mr gr qr qdr ar nt os).ode_solver = os
    ∧ (prepare_ocp loaded bm ft ns mr gr qr qdr ar nt os).objective_functions
        = objectiveList mr gr bm.length
    ∧ (prepare_ocp loaded bm ft ns mr gr qr qdr ar nt os).dynamics
        = dynamicsList bm.length
    ∧ (prepare_ocp loaded bm ft ns mr gr qr qdr ar nt os).constraints
        = constraintsList (bm.getD 1 default)
    ∧ (prepare_ocp loaded bm ft ns mr gr qr qdr ar nt os).x_bounds = xBoundsList bm
    ∧ (prepare_ocp loaded bm ft ns mr gr qr qdr ar nt os).u_bounds
        = uBoundsList bm.length (bm.getD 0 default).nbGeneralizedTorque
            (bm.getD 0 default).nbMuscleTotal
    ∧ (prepare_ocp loaded bm ft ns mr gr qr qdr ar nt os).x_init
        = xInitList loaded bm.length
    ∧ (prepare_ocp loaded bm ft ns mr gr qr qdr ar nt os).u_init
        = uInitList loaded bm.length
    ∧ (prepare_ocp loaded bm ft ns mr gr qr qdr ar nt os).phase_transitions
        = phaseTransitionsList
    ∧ mainSolve externalSolve loaded bm ft ns mr gr qr qdr ar nt os
        = externalSolve (prepare_ocp loaded bm ft ns mr gr qr qdr ar nt os) :=
  ⟨rfl, rfl, rfl, rfl, rfl, rfl, rfl, rfl, rfl, rfl, rfl, rfl, rfl, rfl⟩

/-- C2: the q_ref, qdot_ref and activation_ref arguments are dead: two calls to
prepare_ocp that differ only in them (same loaded gait.bo content, same other
arguments) return identical programs, because the initial guesses are filled
from the loaded previous solution. -/
theorem prepare_ocp_ignores_kalman_refs
    (loaded : Solution) (bm : List BioModel) (ft : List ℚ) (ns : List Nat)
    (mr : List Arr3) (gr : List Mat) (qr qdr ar qr' qdr' ar' : List Mat)
    (nt : Nat) (os : OdeSolver) :
    prepare_ocp loaded bm ft ns mr gr qr qdr ar nt os
      = prepare_ocp loaded bm ft ns mr gr qr' qdr' ar' nt os :=
  rfl

/-
C4 and C10.
-/

/-- C4: with a nonzero step dt, get_phase_time_shooting_numbers returns the
phase-time list unchanged paired with the list, of the same length, of the
quotients time / dt truncated toward zero; a phase time in 0 .. dt truncates
to 0 shooting points. -/
theorem get_phase_time_shooting_numbers_spec (data : DataStruct) (dt : ℚ)
    (hdt : dt ≠ 0) :
    get_phase_time_shooting_numbers data dt
      = some (data.c3d_data.phase_time,
          data.c3d_data.phase_time.map (fun t => intTrunc (t / dt)))
    ∧ (data.c3d_data.phase_time.map (fun t => intTrunc (t / dt))).length
        = data.c3d_data.phase_time.length
    ∧ (∀ t : ℚ, 0 ≤ t → t < dt → intTrunc (t / dt) = 0) := by
  refine ⟨?_, List.length_map _ _, ?_⟩
  · unfold get_phase_time_shooting_numbers
    rw [shootingNums_eq _ _ hdt]
    rfl
  · intro t h0 hlt
    have hdtpos : 0 < dt := lt_of_le_of_lt h0 hlt
    exact intTrunc_eq_zero_of_lt_one _ (div_nonneg h0 (le_of_lt hdtpos))
      ((div_lt_one hdtpos).mpr hlt)

/-- Witness for C4 at the concrete data with phase times 3/100 and 1/200 and
step 1/100: the times come back unchanged and the shooting numbers are the
truncated quotients 3 and 0; the second phase is shorter than the step and
yields 0. -/
theorem get_phase_time_shooting_numbers_spec_witness :
    (1/100 : ℚ) ≠ 0
    ∧ get_phase_time_shooting_numbers ⟨⟨[3/100, 1/200]⟩⟩ (1/100)
        = some ([3/100, 1/200], [3, 0])
    ∧ intTrunc ((1/200 : ℚ) / (1/100)) = 0 := by
  have h := get_phase_time_shooting_numbers_spec ⟨⟨[3/100, 1/200]⟩⟩ (1/100)
    (by norm_num)
  refine ⟨by norm_num, h.1.trans ?_, h.2.2 (1/200) (by norm_num) (by norm_num)⟩
  have h3 : intTrunc ((3/100 : ℚ) / (1/100)) = 3 := by
    norm_num [intTrunc]
  have h0 : intTrunc ((1/200 : ℚ) / (1/100)) = 0 := by
    norm_num [intTrunc]
    rfl
  simp only [List.map_cons, List.map_nil, h3, h0]

/-- C10: get_phase_time_shooting_numbers is total exactly under the
precondition dt nonzero: for any data it returns a result when dt is nonzero,
and for dt = 0 the unguarded division time / dt fails on the first phase time
instead of returning a result. -/
theorem get_phase_time_shooting_numbers_totality (data : DataStruct) (dt : ℚ) :
    (dt ≠ 0 → ∃ r, get_phase_time_shooting_numbers data dt = some r)
    ∧ (data.c3d_data.phase_time ≠ [] →
        get_phase_time_shooting_numbers data 0 = none) := by
  constructor
  · intro hdt
    refine ⟨(data.c3d_data.phase_time,
      data.c3d_data.phase_time.map (fun t => intTrunc (t / dt))), ?_⟩
    unfold get_phase_time_shooting_numbers
    rw [shootingNums_eq _ _ hdt]
    rfl
  · intro hne
    unfold get_phase_time_shooting_numbers
    cases hpt : data.c3d_data.phase_time with
    | nil => exact absurd hpt hne
    | cons t rest => simp [shootingNums]

/-- Witness for C10 at the concrete data with single phase time 1: the
function succeeds at dt = 1/100 and fails at dt = 0. -/
theorem get_phase_time_shooting_numbers_totality_witness :
    (∃ r, get_phase_time_shooting_numbers ⟨⟨[1]⟩⟩ (1/100) = some r)
    ∧ get_phase_time_shooting_numbers ⟨⟨[1]⟩⟩ 0 = none := by
  have h := get_phase_time_shooting_numbers_totality ⟨⟨[1]⟩⟩ (1/100)
  exact ⟨h.1 (by norm_num), h.2 (List.cons_ne_nil _ _)⟩

/-
Sample data for witnesses.
-/

/-- Sample heel-phase model. -/
def sampleModel0 : BioModel :=
  { nbQ := 12, nbQdot := 12, nbGeneralizedTorque := 2, nbMuscleTotal := 3,
    contactNames := [ "Heel_r_X", "Heel_r_Z" ] }

/-- Sample flatfoot-phase model: contact names in the order of the
flatfoot contact set (heel, first metatarsal, fifth metatarsal). -/
def sampleModel1 : BioModel :=
  { nbQ := 12, nbQdot := 12, nbGeneralizedTorque := 2, nbMuscleTotal := 3,
    contactNames := [ "Heel_r_Z", "Meta_1_r_Z", "Meta_5_r_X", "Meta_5_r_Y", "Meta_5_r_Z" ] }

/-- Sample forefoot-phase model. -/
def sampleModel2 : BioModel :=
  { nbQ := 12, nbQdot := 12, nbGeneralizedTorque := 2, nbMuscleTotal := 3,
    contactNames := [ "Meta_1_r_Z", "Meta_5_r_X", "Meta_5_r_Y", "Meta_5_r_Z", "Toe_r_Z" ] }

/-- Sample contact-free swing-phase model. -/
def sampleModel3 : BioModel :=
  { nbQ := 12, nbQdot := 12, nbGeneralizedTorque := 2, nbMuscleTotal := 3,
    contactNames := [] }

/-- Sample four-phase model tuple. -/
def sampleModels : List BioModel := [sampleModel0, sampleModel1, sampleModel2, sampleModel3]

/-- Sample loaded previous solution. -/
def sampleSol : Solution := { states := [], controls := [] }

/-
C7.
-/

/-- Reading position p of a list built by mapping f over range n gives f p. -/
lemma getD_range_map {α : Type} (f : Nat → α) (n p : Nat) (d : α) (hp : p < n) :
    ((List.range n).map f).getD p d = f p := by
  rw [List.getD_eq_getElem?_getD, List.getElem?_map, List.getElem?_range hp]
  rfl

/-- C7: for every phase p, the control bounds built by prepare_ocp are the
explicit vectors of nb_tau copies of -1000 then nb_mus copies of 1/1000
below, and nb_tau copies of 1000 then nb_mus copies of 1 above, with nb_tau
and nb_mus read from the first phase model; the state bounds of phase p are
the library QAndQDotBounds of the phase p model. -/
theorem control_and_state_bounds_spec
    (loaded : Solution) (bm : List BioModel) (ft : List ℚ) (ns : List Nat)
    (mr : List Arr3) (gr : List Mat) (qr qdr ar : List Mat) (nt : Nat)
    (os : OdeSolver) (p : Nat) (hp : p < bm.length) :
    (prepare_ocp loaded bm ft ns mr gr qr qdr ar nt os).u_bounds.getD p default
      = Bounds.explicitB
          (List.replicate (bm.getD 0 default).nbGeneralizedTorque (-1000)
            ++ List.replicate (bm.getD 0 default).nbMuscleTotal (1/1000))
          (List.replicate (bm.getD 0 default).nbGeneralizedTorque 1000
            ++ List.replicate (bm.getD 0 default).nbMuscleTotal 1)
    ∧ (prepare_ocp loaded bm ft ns mr gr qr qdr ar nt os).x_bounds.getD p default
      = Bounds.qAndQDot (bm.getD p default) := by
  constructor
  · have h1 : (prepare_ocp loaded bm ft ns mr gr qr qdr ar nt os).u_bounds
      = uBoundsList bm.length (bm.getD 0 default).nbGeneralizedTorque
          (bm.getD 0 default).nbMuscleTotal := rfl
    rw [h1]
    unfold uBoundsList
    exact getD_range_map _ _ _ _ hp
  · have h2 : (prepare_ocp loaded bm ft ns mr gr qr qdr ar nt os).x_bounds
      = xBoundsList bm := rfl
    rw [h2]
    unfold xBoundsList
    exact getD_range_map _ _ _ _ hp

/-- Witness for C7 at the sample four-phase input, phase 0: torque bounds
-1000 .. 1000 on the 2 torque entries, activation bounds 1/1000 .. 1 on the
3 muscle entries, and QAndQDotBounds of the phase 0 model. -/
theorem control_and_state_bounds_spec_witness :
    0 < sampleModels.length
    ∧ (prepare_ocp sampleSol sampleModels [] [] [] [] [] [] [] 8
        OdeSolver.RK4).u_bounds.getD 0 default
      = Bounds.explicitB (List.replicate 2 (-1000) ++ List.replicate 3 (1/1000))
          (List.replicate 2 1000 ++ List.replicate 3 1)
    ∧ (prepare_ocp sampleSol sampleModels [] [] [] [] [] [] [] 8
        OdeSolver.RK4).x_bounds.getD 0 default
      = Bounds.qAndQDot sampleModel0 := by
  have h := control_and_state_bounds_spec sampleSol sampleModels [] [] [] [] []
    [] [] 8 OdeSolver.RK4 0 (by decide)
  exact ⟨by decide, h.1, h.2⟩

/-
C9.
-/

/-- The phase indices of the dynamics list are range (nb_phases - 1) followed
by the hard-coded 3. -/
lemma dynamicsList_map_phase (n : Nat) :
    (dynamicsList n).map Dynamics.phase = List.range (n - 1) ++ [3] := by
  unfold dynamicsList
  rw [List.map_append, List.map_map]
  have h : List.map (Dynamics.phase ∘ fun p =>
      ({ fcn := DynamicsTag.MUSCLE_DRIVEN, phase := p, with_contact := true,
         with_torque := true, expand := false } : Dynamics)) (List.range (n - 1))
      = List.map (fun p => p) (List.range (n - 1)) := rfl
  rw [h]
  simp

/-- C9: the dynamics list gives MUSCLE_DRIVEN with contact to every phase p
with p + 1 < nb_phases and MUSCLE_DRIVEN without contact to the hard-coded
phase 3; its phase indices are a permutation of the set of phases exactly
when the model tuple has length 4. -/
theorem dynamics_phase_coverage_iff_four_phases
    (loaded : Solution) (bm : List BioModel) (ft : List ℚ) (ns : List Nat)
    (mr : List Arr3) (gr : List Mat) (qr qdr ar : List Mat) (nt : Nat)
    (os : OdeSolver) :
    (∀ p, p + 1 < bm.length →
      ({ fcn := DynamicsTag.MUSCLE_DRIVEN, phase := p, with_contact := true,
         with_torque := true, expand := false } : Dynamics)
        ∈ (prepare_ocp loaded bm ft ns mr gr qr qdr ar nt os).dynamics)
    ∧ ({ fcn := DynamicsTag.MUSCLE_DRIVEN, phase := 3, with_contact := false,
         with_torque := true, expand := false } : Dynamics)
        ∈ (prepare_ocp loaded bm ft ns mr gr qr qdr ar nt os).dynamics
    ∧ (List.Perm
        ((prepare_ocp loaded bm ft ns mr gr qr qdr ar nt os).dynamics.map
          Dynamics.phase)
        (List.range bm.length)
      ↔ bm.length = 4) := by
  have hdyn : (prepare_ocp loaded bm ft ns mr gr qr qdr ar nt os).dynamics
      = dynamicsList bm.length := rfl
  rw [hdyn]
  refine ⟨?_, ?_, ?_⟩
  · intro p hp
    unfold dynamicsList
    exact List.mem_append_left _
      (List.mem_map_of_mem _ (List.mem_range.mpr (by omega)))
  · unfold dynamicsList
    exact List.mem_append_right _ (List.mem_cons_self _ _)
  · rw [dynamicsList_map_phase]
    constructor
    · intro hperm
      have h3 : (3 : Nat) ∈ List.range bm.length :=
        hperm.mem_iff.mp (List.mem_append_right _ (List.mem_cons_self _ _))
      have h3' : 3 < bm.length := List.mem_range.mp h3
      have hnodup : (List.range (bm.length - 1) ++ [3]).Nodup :=
        hperm.symm.nodup (List.nodup_range _)
      have hdisj := (List.nodup_append.mp hnodup).2.2
      have hnotmem : (3 : Nat) ∉ List.range (bm.length - 1) :=
        fun hmem => hdisj hmem (List.mem_cons_self _ _)
      have hle : ¬ 3 < bm.length - 1 :=
        fun hlt => hnotmem (List.mem_range.mpr hlt)
      omega
    · intro h4
      rw [h4]
      decide

/-- Witness for C9 at the sample four-phase input: phase 0 gets the contact
dynamics, phase 3 the contact-free dynamics, and the dynamics phase indices
cover the four phases exactly once. -/
theorem dynamics_phase_coverage_iff_four_phases_witness :
    ({ fcn := DynamicsTag.MUSCLE_DRIVEN, phase := 0, with_contact := true,
        with_torque := true, expand := false } : Dynamics)
      ∈ (prepare_ocp sampleSol sampleModels [] [] [] [] [] [] [] 8
          OdeSolver.RK4).dynamics
    ∧ ({ fcn := DynamicsTag.MUSCLE_DRIVEN, phase := 3, with_contact := false,
          with_torque := true, expand := false } : Dynamics)
      ∈ (prepare_ocp sampleSol sampleModels [] [] [] [] [] [] [] 8
          OdeSolver.RK4).dynamics
    ∧ List.Perm
        ((prepare_ocp sampleSol sampleModels [] [] [] [] [] [] [] 8
          OdeSolver.RK4).dynamics.map Dynamics.phase)
        (List.range sampleModels.length) := by
  have h := dynamics_phase_coverage_iff_four_phases sampleSol sampleModels []
    [] [] [] [] [] [] 8 OdeSolver.RK4
  exact ⟨h.1 0 (by decide), h.2.1, h.2.2.mpr (by decide)⟩

/-
C3.
-/

/-- Reference reading of get_contact_index: the indices of the names whose
last character equals the tag. -/
def tagIndices (names : List String) (tag : Char) : List Nat :=
  ((names.enum.filter (fun it => it.2.data.getLast? == some tag)).map Prod.fst)

/-- When every name is nonempty the flags comprehension succeeds and computes
the comparison of each last character with the tag. -/
lemma lastFlags_eq (names : List String) (tag : Char)
    (h : ∀ s ∈ names, s.data ≠ []) :
    lastFlags names tag
      = some (names.map (fun s => s.data.getLast? == some tag)) := by
  induction names with
  | nil => rfl
  | cons s rest ih =>
    have hs : s.data ≠ [] := h s (List.mem_cons_self _ _)
    obtain ⟨c, hc⟩ : ∃ c, s.data.getLast? = some c := by
      cases hgl : s.data.getLast? with
      | none => exact absurd (List.getLast?_eq_none_iff.mp hgl) hs
      | some c => exact ⟨c, rfl⟩
    have ih' := ih (fun x hx => h x (List.mem_cons_of_mem _ hx))
    simp [lastFlags, hc, ih']

/-- When every contact name is nonempty, get_contact_index returns exactly the
indices of the names whose last character equals the tag. -/
lemma get_contact_index_eq (pn : PenaltyNode) (tag : Char)
    (h : ∀ s ∈ pn.nlp.model.contactNames, s.data ≠ []) :
    get_contact_index pn tag
      = some (tagIndices pn.nlp.model.contactNames tag) := by
  unfold get_contact_index
  rw [lastFlags_eq _ _ h]
  rw [Option.map_some']
  congr 1
  rw [List.enum_map, List.filter_map, List.map_map]
  rfl

/-- The tag indices are strictly increasing: they form a sublist of
range (number of names). -/
lemma tagIndices_sorted (names : List String) (tag : Char) :
    List.Pairwise (· < ·) (tagIndices names tag) := by
  have hsub : List.Sublist
      ((names.enum.filter (fun it => it.2.data.getLast? == some tag)).map
        Prod.fst)
      (names.enum.map Prod.fst) :=
    List.Sublist.map _ (List.filter_sublist _)
  rw [List.enum_map_fst] at hsub
  exact List.Pairwise.sublist hsub (List.pairwise_lt_range _)

/-- Membership in the tag indices characterised by position: i is listed
exactly when the i-th name exists and ends with the tag. -/
lemma tagIndices_mem (names : List String) (tag : Char) (i : Nat) :
    i ∈ tagIndices names tag
      ↔ ∃ s, names[i]? = some s ∧ s.data.getLast? = some tag := by
  unfold tagIndices
  simp only [List.mem_map, List.mem_filter, List.mem_enum_iff_getElem?]
  constructor
  · rintro ⟨⟨j, s⟩, ⟨hget, hpred⟩, rfl⟩
    exact ⟨s, hget, by simpa using hpred⟩
  · rintro ⟨s, hget, hpred⟩
    exact ⟨(i, s), ⟨hget, by simpa using hpred⟩, rfl⟩

/-- When no name ends with the tag the tag indices are empty. -/
lemma tagIndices_eq_nil (names : List String) (tag : Char)
    (h : ∀ s ∈ names, s.data.getLast? ≠ some tag) :
    tagIndices names tag = [] := by
  have hfil : (names.enum.filter
      (fun it => it.2.data.getLast? == some tag)) = [] := by
    rw [List.filter_eq_nil_iff]
    intro it hit
    have hmem : it.2 ∈ names :=
      List.getElem?_mem (List.mem_enum_iff_getElem?.mp hit)
    simpa using h it.2 hmem
  simp [tagIndices, hfil]

/-- C3: for every penalty node with nonempty contact names and every tag,
get_contact_index returns exactly the indices of the contact names whose last
character equals the tag, in strictly increasing order, and the empty list
when no name ends with the tag. -/
theorem get_contact_index_spec (pn : PenaltyNode) (tag : Char)
    (h : ∀ s ∈ pn.nlp.model.contactNames, s.data ≠ []) :
    get_contact_index pn tag
      = some (tagIndices pn.nlp.model.contactNames tag)
    ∧ (∀ i, i ∈ tagIndices pn.nlp.model.contactNames tag
        ↔ ∃ s, pn.nlp.model.contactNames[i]? = some s
            ∧ s.data.getLast? = some tag)
    ∧ List.Pairwise (· < ·) (tagIndices pn.nlp.model.contactNames tag)
    ∧ ((∀ s ∈ pn.nlp.model.contactNames, s.data.getLast? ≠ some tag) →
        get_contact_index pn tag = some []) := by
  refine ⟨get_contact_index_eq pn tag h, fun i => tagIndices_mem _ _ i,
    tagIndices_sorted _ _, fun hno => ?_⟩
  rw [get_contact_index_eq pn tag h, tagIndices_eq_nil _ _ hno]

/-- Sample penalty node over the flatfoot model, with a concrete
contact-forces function. -/
def samplePn : PenaltyNode :=
  { nlp := { model := sampleModel1, q := [1], qdot := [2], tau := [3],
             muscles := [4], parameters := [],
             contact_forces_func := fun _ _ _ => [10, 20, 30, 40, 50] } }

/-- Witness for C3 at the sample node and tag Z: the names ending in Z are at
positions 0, 1 and 4. -/
theorem get_contact_index_spec_witness :
    (∀ s ∈ samplePn.nlp.model.contactNames, s.data ≠ [])
    ∧ get_contact_index samplePn 'Z'
        = some (tagIndices samplePn.nlp.model.contactNames 'Z')
    ∧ tagIndices samplePn.nlp.model.contactNames 'Z' = [0, 1, 4] := by
  refine ⟨by decide, (get_contact_index_spec samplePn 'Z' (by decide)).1,
    by decide⟩

/-
C6.
-/

/-- Reference sum: total of the force entries paired with the names whose
last character equals the tag. -/
def sumForcesWithTag (names : List String) (v : List ℚ) (tag : Char) : ℚ :=
  (((names.zip v).filter (fun it => it.1.data.getLast? == some tag)).map
    Prod.snd).sum

/-- Summing a force vector over the enumerated filtered indices, starting at
offset k, equals the reference sum over the names zipped with the vector from
position k on. -/
lemma sumAt_enumFrom_filter (tag : Char) (w : List ℚ) :
    ∀ (names : List String) (k : Nat), (w.drop k).length = names.length →
    sumAt w (((List.enumFrom k names).filter
        (fun it => it.2.data.getLast? == some tag)).map Prod.fst)
      = sumForcesWithTag names (w.drop k) tag := by
  intro names
  induction names with
  | nil =>
    intro k hk
    simp [sumAt, sumForcesWithTag]
  | cons s rest ih =>
    intro k hk
    have hklt : k < w.length := by
      rw [List.length_drop] at hk
      simp only [List.length_cons] at hk
      omega
    have hdrop : w.drop k = w[k] :: w.drop (k + 1) :=
      List.drop_eq_getElem_cons hklt
    have hlen' : (w.drop (k + 1)).length = rest.length := by
      rw [List.length_drop]
      rw [List.length_drop] at hk
      simp only [List.length_cons] at hk
      omega
    rw [List.enumFrom_cons]
    by_cases hpred : (s.data.getLast? == some tag) = true
    · have hfilE : List.filter (fun it => it.2.data.getLast? == some tag)
          ((k, s) :: List.enumFrom (k + 1) rest)
          = (k, s) :: List.filter (fun it => it.2.data.getLast? == some tag)
              (List.enumFrom (k + 1) rest) :=
        List.filter_cons_of_pos hpred
      have hfilZ : List.filter (fun it => it.1.data.getLast? == some tag)
          ((s, w[k]) :: rest.zip (w.drop (k + 1)))
          = (s, w[k]) :: List.filter (fun it => it.1.data.getLast? == some tag)
              (rest.zip (w.drop (k + 1))) :=
        List.filter_cons_of_pos hpred
      rw [hfilE, List.map_cons]
      have hsum : ∀ idxs : List Nat, sumAt w (k :: idxs)
          = w.getD k 0 + sumAt w idxs := by
        intro idxs
        simp [sumAt]
      rw [hsum, ih (k + 1) hlen', hdrop]
      unfold sumForcesWithTag
      rw [List.zip_cons_cons, hfilZ, List.map_cons, List.sum_cons]
      congr 1
      rw [List.getD_eq_getElem?_getD, List.getElem?_eq_getElem hklt]
      rfl
    · have hfilE : List.filter (fun it => it.2.data.getLast? == some tag)
          ((k, s) :: List.enumFrom (k + 1) rest)
          = List.filter (fun it => it.2.data.getLast? == some tag)
              (List.enumFrom (k + 1) rest) :=
        List.filter_cons_of_neg hpred
      have hfilZ : List.filter (fun it => it.1.data.getLast? == some tag)
          ((s, w[k]) :: rest.zip (w.drop (k + 1)))
          = List.filter (fun it => it.1.data.getLast? == some tag)
              (rest.zip (w.drop (k + 1))) :=
        List.filter_cons_of_neg hpred
      rw [hfilE, ih (k + 1) hlen', hdrop]
      unfold sumForcesWithTag
      rw [List.zip_cons_cons, hfilZ]

/-- Summing a force vector of the right length over the tag indices equals
the reference sum over names zipped with the vector. -/
lemma sumAt_tagIndices (names : List String) (v : List ℚ) (tag : Char)
    (h : v.length = names.length) :
    sumAt v (tagIndices names tag) = sumForcesWithTag names v tag := by
  have haux := sumAt_enumFrom_filter tag v names 0 (by simpa using h)
  simpa [tagIndices, List.enum_eq_enumFrom] using haux

/-- C6: on a penalty node with nonempty contact names and a contact-forces
vector with one entry per contact name, track_sum_contact_forces returns the
3-component vector of the sums of the entries whose names end in X, Y and Z
respectively, evaluated on the stacked states (q, qdot) and controls
(tau, muscles). -/
theorem track_sum_contact_forces_spec (pn : PenaltyNode)
    (h : ∀ s ∈ pn.nlp.model.contactNames, s.data ≠ [])
    (force : List ℚ)
    (hforce : force = pn.nlp.contact_forces_func (pn.nlp.q ++ pn.nlp.qdot)
        (pn.nlp.tau ++ pn.nlp.muscles) pn.nlp.parameters)
    (hlen : force.length = pn.nlp.model.contactNames.length) :
    track_sum_contact_forces pn
      = some [ sumForcesWithTag pn.nlp.model.contactNames force 'X',
               sumForcesWithTag pn.nlp.model.contactNames force 'Y',
               sumForcesWithTag pn.nlp.model.contactNames force 'Z' ] := by
  unfold track_sum_contact_forces
  rw [get_contact_index_eq pn 'X' h, get_contact_index_eq pn 'Y' h,
    get_contact_index_eq pn 'Z' h]
  dsimp only
  rw [← hforce]
  rw [sumAt_tagIndices _ _ _ hlen, sumAt_tagIndices _ _ _ hlen,
    sumAt_tagIndices _ _ _ hlen]

/-- Witness for C6 at the sample node: forces 10, 20, 30, 40, 50 on the
flatfoot contact names give the X sum 30, the Y sum 40 and the Z sum
10 + 20 + 50 = 80. -/
theorem track_sum_contact_forces_spec_witness :
    (∀ s ∈ samplePn.nlp.model.contactNames, s.data ≠ [])
    ∧ ([10, 20, 30, 40, 50] : List ℚ).length
        = samplePn.nlp.model.contactNames.length
    ∧ track_sum_contact_forces samplePn = some [30, 40, 80] := by
  have h := track_sum_contact_forces_spec samplePn (by decide)
    [10, 20, 30, 40, 50] rfl (by decide)
  refine ⟨by decide, by decide, h.trans ?_⟩
  have hx : ((samplePn.nlp.model.contactNames.zip
      ([10, 20, 30, 40, 50] : List ℚ)).filter
      (fun it => it.1.data.getLast? == some 'X')).map Prod.snd = [30] := by
    decide
  have hy : ((samplePn.nlp.model.contactNames.zip
      ([10, 20, 30, 40, 50] : List ℚ)).filter
      (fun it => it.1.data.getLast? == some 'Y')).map Prod.snd = [40] := by
    decide
  have hz : ((samplePn.nlp.model.contactNames.zip
      ([10, 20, 30, 40, 50] : List ℚ)).filter
      (fun it => it.1.data.getLast? == some 'Z')).map Prod.snd
      = [10, 20, 50] := by
    decide
  unfold sumForcesWithTag
  rw [hx, hy, hz]
  norm_num

/-
C5.
-/

/-- Every objective produced by the per-phase loop carries that phase
index. -/
lemma phaseObjectives_phase (mr : List Arr3) (q : Nat) (o : Objective)
    (ho : o ∈ phaseObjectives mr q) : o.phase = q := by
  unfold phaseObjectives at ho
  rw [List.mem_append] at ho
  cases ho with
  | inl h =>
    rw [List.mem_map] at h
    obtain ⟨it, hit, rfl⟩ := h
    rfl
  | inr h =>
    simp only [List.mem_cons, List.not_mem_nil, or_false] at h
    rcases h with rfl | rfl | rfl | rfl <;> rfl

/-- Filtering a phase-indexed flatMap over range n by phase p keeps exactly
the block of phase p, when p < n. -/
lemma filter_phase_flatMap (f : Nat → List Objective)
    (hf : ∀ q o, o ∈ f q → o.phase = q) (p : Nat) :
    ∀ n, ((List.range n).flatMap f).filter (fun o => o.phase == p)
      = if p < n then f p else [] := by
  intro n
  induction n with
  | zero => simp
  | succ n ih =>
    rw [List.range_succ, List.flatMap_append, List.filter_append, ih]
    have hsingle : List.flatMap [n] f = f n := by simp
    rw [hsingle]
    by_cases h1 : p < n
    · have h2 : p < n + 1 := by omega
      have hne : p ≠ n := by omega
      have hnil : (f n).filter (fun o => o.phase == p) = [] := by
        rw [List.filter_eq_nil_iff]
        intro o ho
        simp only [beq_iff_eq]
        rw [hf n o ho]
        omega
      simp [h1, h2, hnil]
    · by_cases h2 : p = n
      · subst h2
        have hself : (f p).filter (fun o => o.phase == p) = f p := by
          rw [List.filter_eq_self]
          intro o ho
          simp [hf p o ho]
        simp [h1, hself]
      · have h3 : ¬ p < n + 1 := by omega
        have hnil : (f n).filter (fun o => o.phase == p) = [] := by
          rw [List.filter_eq_nil_iff]
          intro o ho
          simp only [beq_iff_eq]
          rw [hf n o ho]
          omega
        simp [h1, h3, hnil]

/-- Filtering a phase-indexed map over range m by phase p keeps exactly the
element of phase p, when p < m. -/
lemma singleton_map_filter (g : Nat → Objective) (hg : ∀ q, (g q).phase = q)
    (p : Nat) :
    ∀ m, ((List.range m).map g).filter (fun o => o.phase == p)
      = if p < m then [g p] else [] := by
  intro m
  have h := filter_phase_flatMap (fun q => [g q])
    (by
      intro q o ho
      rw [List.mem_singleton] at ho
      subst ho
      exact hg q) p m
  rw [List.map_eq_flatMap]
  exact h

/-- C5: for every phase p of the model tuple, the objectives of phase p are
exactly the four quadratic TRACK_MARKERS terms over the pelvis, anatomical,
foot and tissue marker groups with weights 10000, 1000, 10000 and 100, the
four quadratic MINIMIZE_CONTROL terms (tau on indices 10 and 12 with weight
1/1000, tau on indices 6, 7, 8, 9 and 11 with weight 1, muscles with weight
10, and the tau derivative with weight 1/10), followed by the custom
contact-force tracking objective with weight 1/100 and target grf_ref of
phase p exactly when p + 1 < nb_phases. -/
theorem objective_terms_per_phase
    (loaded : Solution) (bm : List BioModel) (ft : List ℚ) (ns : List Nat)
    (mr : List Arr3) (gr : List Mat) (qr qdr ar : List Mat) (nt : Nat)
    (os : OdeSolver) (p : Nat) (hp : p < bm.length) :
    ((prepare_ocp loaded bm ft ns mr gr qr qdr ar nt os).objective_functions).filter
        (fun o => o.phase == p)
      = [ { fcn := ObjectiveTag.TRACK_MARKERS, node := NodeSpec.ALL,
            weight := 10000, index := markers_pelvis,
            target := some (Target.arr3slice (mr.getD p []) markers_pelvis),
            quadratic := true, phase := p },
          { fcn := ObjectiveTag.TRACK_MARKERS, node := NodeSpec.ALL,
            weight := 1000, index := markers_anat,
            target := some (Target.arr3slice (mr.getD p []) markers_anat),
            quadratic := true, phase := p },
          { fcn := ObjectiveTag.TRACK_MARKERS, node := NodeSpec.ALL,
            weight := 10000, index := markers_foot,
            target := some (Target.arr3slice (mr.getD p []) markers_foot),
            quadratic := true, phase := p },
          { fcn := ObjectiveTag.TRACK_MARKERS, node := NodeSpec.ALL,
            weight := 100, index := markers_tissus,
            target := some (Target.arr3slice (mr.getD p []) markers_tissus),
            quadratic := true, phase := p },
          { fcn := ObjectiveTag.MINIMIZE_CONTROL, key := some "tau",
            weight := 1/1000, index := [10, 12], quadratic := true,
            phase := p },
          { fcn := ObjectiveTag.MINIMIZE_CONTROL, key := some "tau",
            weight := 1, index := [6, 7, 8, 9, 11], quadratic := true,
            phase := p },
          { fcn := ObjectiveTag.MINIMIZE_CONTROL, key := some "muscles",
            weight := 10, quadratic := true, phase := p },
          { fcn := ObjectiveTag.MINIMIZE_CONTROL, key := some "tau",
            derivative := true, weight := 1/10, quadratic := true,
            phase := p } ]
        ++ (if p + 1 < bm.length then
            [ { fcn := ObjectiveTag.CUSTOM_track_sum_contact_forces,
                node := NodeSpec.ALL, weight := 1/100,
                target := some (Target.arr2 (gr.getD p [])),
                quadratic := true, phase := p } ]
          else []) := by
  have hobj : (prepare_ocp loaded bm ft ns mr gr qr qdr ar nt os).objective_functions
      = objectiveList mr gr bm.length := rfl
  rw [hobj]
  unfold objectiveList
  rw [List.filter_append,
    filter_phase_flatMap (phaseObjectives mr) (phaseObjectives_phase mr) p
      bm.length,
    singleton_map_filter (grfObjective gr) (fun q => rfl) p (bm.length - 1),
    if_pos hp]
  by_cases hlast : p + 1 < bm.length
  · have hlt : p < bm.length - 1 := by omega
    rw [if_pos hlt, if_pos hlast]
    rfl
  · have hge : ¬ p < bm.length - 1 := by omega
    rw [if_neg hge, if_neg hlast]
    rfl

/-- Witness for C5 at the sample four-phase input, phase 0: the eight
standard terms followed by the custom contact-force objective. -/
theorem objective_terms_per_phase_witness :
    0 < sampleModels.length
    ∧ ((prepare_ocp sampleSol sampleModels [] [] [] [] [] [] [] 8
        OdeSolver.RK4).objective_functions).filter (fun o => o.phase == 0)
      = [ { fcn := ObjectiveTag.TRACK_MARKERS, node := NodeSpec.ALL,
            weight := 10000, index := markers_pelvis,
            target := some (Target.arr3slice [] markers_pelvis),
            quadratic := true, phase := 0 },
          { fcn := ObjectiveTag.TRACK_MARKERS, node := NodeSpec.ALL,
            weight := 1000, index := markers_anat,
            target := some (Target.arr3slice [] markers_anat),
            quadratic := true, phase := 0 },
          { fcn := ObjectiveTag.TRACK_MARKERS, node := NodeSpec.ALL,
            weight := 10000, index := markers_foot,
            target := some (Target.arr3slice [] markers_foot),
            quadratic := true, phase := 0 },
          { fcn := ObjectiveTag.TRACK_MARKERS, node := NodeSpec.ALL,
            weight := 100, index := markers_tissus,
            target := some (Target.arr3slice [] markers_tissus),
            quadratic := true, phase := 0 },
          { fcn := ObjectiveTag.MINIMIZE_CONTROL, key := some "tau",
            weight := 1/1000, index := [10, 12], quadratic := true,
            phase := 0 },
          { fcn := ObjectiveTag.MINIMIZE_CONTROL, key := some "tau",
            weight := 1, index := [6, 7, 8, 9, 11], quadratic := true,
            phase := 0 },
          { fcn := ObjectiveTag.MINIMIZE_CONTROL, key := some "muscles",
            weight := 10, quadratic := true, phase := 0 },
          { fcn := ObjectiveTag.MINIMIZE_CONTROL, key := some "tau",
            derivative := true, weight := 1/10, quadratic := true,
            phase := 0 },
          { fcn := ObjectiveTag.CUSTOM_track_sum_contact_forces,
            node := NodeSpec.ALL, weight := 1/100,
            target := some (Target.arr2 []), quadratic := true,
            phase := 0 } ] := by
  have h := objective_terms_per_phase sampleSol sampleModels [] [] [] [] []
    [] [] 8 OdeSolver.RK4 0 (by decide)
  exact ⟨by decide, h⟩

/-
C8.
-/

/-- C8: the constraint list of prepare_ocp constrains the vertical contact
forces at indices 0, 1 and 4 of phase 1 and 0, 3 and 4 of phase 2 to
0 .. infinity at every node, adds a NON_SLIPPING constraint with static
friction coefficient 1/2 to both phases, forces the heel contact entries of
the phase 1 model to zero at the penultimate node of phase 1, and the
phase-transition list is exactly the two IMPACT transitions after phases 0
and 1. -/
theorem constraints_and_transitions_spec
    (loaded : Solution) (bm : List BioModel) (ft : List ℚ) (ns : List Nat)
    (mr : List Arr3) (gr : List Mat) (qr qdr ar : List Mat) (nt : Nat)
    (os : OdeSolver) :
    ({ fcn := ConstraintTag.TRACK_CONTACT_FORCES, node := NodeSpec.ALL,
        min_bound := BoundVal.fin 0, max_bound := BoundVal.inf,
        contact_index := [0, 1, 4], phase := 1 } : Constraint)
      ∈ (prepare_ocp loaded bm ft ns mr gr qr qdr ar nt os).constraints
    ∧ ({ fcn := ConstraintTag.TRACK_CONTACT_FORCES, node := NodeSpec.ALL,
          min_bound := BoundVal.fin 0, max_bound := BoundVal.inf,
          contact_index := [0, 3, 4], phase := 2 } : Constraint)
      ∈ (prepare_ocp loaded bm ft ns mr gr qr qdr ar nt os).constraints
    ∧ ({ fcn := ConstraintTag.NON_SLIPPING, node := NodeSpec.ALL,
          tangential_component_idx := [2, 3],
          normal_component_idx := [0, 1, 4],
          static_friction_coefficient := 1/2, phase := 1 } : Constraint)
      ∈ (prepare_ocp loaded bm ft ns mr gr qr qdr ar nt os).constraints
    ∧ ({ fcn := ConstraintTag.NON_SLIPPING, node := NodeSpec.ALL,
          tangential_component_idx := [1, 2],
          normal_component_idx := [0, 3, 4],
          static_friction_coefficient := 1/2, phase := 2 } : Constraint)
      ∈ (prepare_ocp loaded bm ft ns mr gr qr qdr ar nt os).constraints
    ∧ ({ fcn := ConstraintTag.TRACK_CONTACT_FORCES,
          node := NodeSpec.PENULTIMATE,
          min_bound := BoundVal.fin 0, max_bound := BoundVal.fin 0,
          contact_index := heelContactIndex (bm.getD 1 default),
          phase := 1 } : Constraint)
      ∈ (prepare_ocp loaded bm ft ns mr gr qr qdr ar nt os).constraints
    ∧ (prepare_ocp loaded bm ft ns mr gr qr qdr ar nt os).phase_transitions
      = [ { fcn := PhaseTransitionTag.IMPACT, phase_pre_idx := 0 },
          { fcn := PhaseTransitionTag.IMPACT, phase_pre_idx := 1 } ] := by
  have hcon : (prepare_ocp loaded bm ft ns mr gr qr qdr ar nt os).constraints
      = constraintsList (bm.getD 1 default) := rfl
  rw [hcon]
  unfold constraintsList
  refine ⟨?_, ?_, ?_, ?_, ?_, rfl⟩
  · exact List.mem_cons_of_mem _ (List.mem_cons_of_mem _
      (List.mem_cons_of_mem _ (List.mem_cons_self _ _)))
  · exact List.mem_cons_of_mem _ (List.mem_cons_of_mem _
      (List.mem_cons_of_mem _ (List.mem_cons_of_mem _
        (List.mem_cons_of_mem _ (List.mem_cons_of_mem _
          (List.mem_cons_self _ _))))))
  · exact List.mem_cons_of_mem _ (List.mem_cons_of_mem _
      (List.mem_cons_of_mem _ (List.mem_cons_of_mem _
        (List.mem_cons_self _ _))))
  · exact List.mem_cons_of_mem _ (List.mem_cons_of_mem _
      (List.mem_cons_of_mem _ (List.mem_cons_of_mem _
        (List.mem_cons_of_mem _ (List.mem_cons_of_mem _
          (List.mem_cons_of_mem _ (List.mem_cons_self _ _)))))))
  · exact List.mem_cons_of_mem _ (List.mem_cons_of_mem _
      (List.mem_cons_of_mem _ (List.mem_cons_of_mem _
        (List.mem_cons_of_mem _ (List.mem_cons_self _ _)))))
